import Mathlib

/-!
Shallow embedding of the core-foundry tool-registry library
(src/corefoundry/core.py, src/corefoundry/agent.py, src/agent_adapters/).

Python dictionaries are modelled as association lists preserving insertion
order; JSON-like raw values (the structural schema descriptions passed to
register, and the serialized output of get_json) are modelled by the
inductive type Json below.  Pydantic model construction is modelled by
explicit construct functions returning Except (pydantic's default config
ignores unknown keys, which both pydantic v1 and v2 do).  Machine-level
details (network clients, module imports) that the source treats as
external collaborators are taken as parameters where noted.
-/

set_option autoImplicit false

namespace CoreFoundry

/-- JSON-like values, enough for the structural schema descriptions the
library manipulates: null, booleans, integers, strings, arrays, objects. -/
inductive Json where
  | null : Json
  | bool : Bool → Json
  | num : Int → Json
  | str : String → Json
  | arr : List Json → Json
  | obj : List (String × Json) → Json

/-- Python dict lookup (d.get(key)) on an association list: first match. -/
def alookup {α : Type} : List (String × α) → String → Option α
  | [], _ => none
  | (k, v) :: rest, key => if k == key then some v else alookup rest key

/-- The ToolProperty pydantic model of core.py: a required string field
type and an optional string field description.  The source declares no
items, enum, properties or required fields on this model. -/
structure ToolProperty where
  type : String
  description : Option String
deriving Repr, DecidableEq

/-- The InputSchema pydantic model of core.py: type defaulting to the
string object, properties mapping parameter names to ToolProperty
(insertion order kept, as a Python dict does), required names. -/
structure InputSchema where
  type : String
  properties : List (String × ToolProperty)
  required : List String
deriving Repr, DecidableEq

/-- Pydantic construction of a ToolProperty from a raw JSON-like value:
the value must be a mapping, its type key must be present and a string,
description may be absent, null or a string; unknown keys are ignored
(pydantic default extra behaviour). -/
def ToolProperty.construct : Json → Except String ToolProperty
  | Json.obj kvs =>
    match alookup kvs "type" with
    | none => Except.error "type: Field required"
    | some (Json.str t) =>
      match alookup kvs "description" with
      | none => Except.ok ⟨t, none⟩
      | some Json.null => Except.ok ⟨t, none⟩
      | some (Json.str d) => Except.ok ⟨t, some d⟩
      | some _ => Except.error "description: Input should be a valid string"
    | some _ => Except.error "type: Input should be a valid string"
  | _ => Except.error "Input should be a valid dictionary"

/-- Construct the properties mapping: each raw value is coerced into a
ToolProperty, in order. -/
def constructProps : List (String × Json) → Except String (List (String × ToolProperty))
  | [] => Except.ok []
  | (k, v) :: rest =>
    match ToolProperty.construct v with
    | Except.error e => Except.error e
    | Except.ok p =>
      match constructProps rest with
      | Except.error e => Except.error e
      | Except.ok ps => Except.ok ((k, p) :: ps)

/-- Parse a list of JSON values as a list of strings (the required field). -/
def parseStrList : List Json → Except String (List String)
  | [] => Except.ok []
  | Json.str s :: rest =>
    match parseStrList rest with
    | Except.error e => Except.error e
    | Except.ok ss => Except.ok (s :: ss)
  | _ :: _ => Except.error "required: Input should be a valid string"

/-- The type field of InputSchema: defaults to the string object. -/
def parseSchemaType (kvs : List (String × Json)) : Except String String :=
  match alookup kvs "type" with
  | none => Except.ok "object"
  | some (Json.str s) => Except.ok s
  | some _ => Except.error "type: Input should be a valid string"

/-- The properties field of InputSchema: defaults to the empty mapping. -/
def parseSchemaProps (kvs : List (String × Json)) :
    Except String (List (String × ToolProperty)) :=
  match alookup kvs "properties" with
  | none => Except.ok []
  | some (Json.obj pkvs) => constructProps pkvs
  | some _ => Except.error "properties: Input should be a valid dictionary"

/-- The required field of InputSchema: defaults to the empty list. -/
def parseSchemaRequired (kvs : List (String × Json)) : Except String (List String) :=
  match alookup kvs "required" with
  | none => Except.ok []
  | some (Json.arr xs) => parseStrList xs
  | some _ => Except.error "required: Input should be a valid list"

/-- Pydantic construction of an InputSchema from a raw keyword mapping,
as in InputSchema(**raw): absent fields default, raw property dictionaries
are coerced into ToolProperty instances, unknown keys are ignored. -/
def InputSchema.construct (kvs : List (String × Json)) : Except String InputSchema :=
  match parseSchemaType kvs with
  | Except.error e => Except.error e
  | Except.ok t =>
    match parseSchemaProps kvs with
    | Except.error e => Except.error e
    | Except.ok ps =>
      match parseSchemaRequired kvs with
      | Except.error e => Except.error e
      | Except.ok req => Except.ok ⟨t, ps, req⟩

/-- Serialization of a ToolProperty with exclude_none, as inside
InputSchema.dict(exclude_none=True): the description key is omitted when
the field holds None. -/
def ToolProperty.dump (p : ToolProperty) : Json :=
  Json.obj (("type", Json.str p.type) ::
    (match p.description with
     | none => []
     | some d => [("description", Json.str d)]))

/-- Serialization of an InputSchema with exclude_none, the value of
input_schema.dict(exclude_none=True) in get_json, as a keyword mapping. -/
def InputSchema.dump (s : InputSchema) : List (String × Json) :=
  [("type", Json.str s.type),
   ("properties", Json.obj (s.properties.map (fun kp => (kp.1, kp.2.dump)))),
   ("required", Json.arr (s.required.map Json.str))]

/-- The ToolDefinition pydantic model: name, description, input_schema
and the excluded runtime callable.  The callable type is a parameter:
the registry only stores and returns callables. -/
structure ToolDefinition (Fn : Type) where
  name : String
  description : String
  input_schema : InputSchema
  callable : Option Fn
deriving Repr, DecidableEq

/-- The ToolRegistry: the private name-to-definition mapping, a Python
dict in insertion order. -/
structure ToolRegistry (Fn : Type) where
  tools : List (String × ToolDefinition Fn)
deriving Repr, DecidableEq

/-- ToolRegistry() with no tools. -/
def ToolRegistry.empty (Fn : Type) : ToolRegistry Fn := ⟨[]⟩

/-- Python truthiness choice (a or b) on an optional string a: None and
the empty string are falsy. -/
def strOr (a : Option String) (b : String) : String :=
  match a with
  | none => b
  | some s => if s == "" then b else s

/-- The tool name resolution of register: name or func.__name__. -/
def resolveName (name : Option String) (funcName : String) : String :=
  strOr name funcName

/-- The description resolution of register:
description or func.__doc__ or the fixed fallback literal. -/
def resolveDescription (description : Option String) (funcDoc : Option String) : String :=
  strOr description (strOr funcDoc "No description provided")

/-- Errors register can raise, both ValueError in the source, carrying
the formatted message. -/
inductive RegisterError where
  | invalidSchema : String → RegisterError
  | alreadyRegistered : String → RegisterError
deriving Repr, DecidableEq

/-- Membership test (tool_name in self._tools). -/
def ToolRegistry.containsName {Fn : Type} (reg : ToolRegistry Fn) (n : String) : Bool :=
  (alookup reg.tools n).isSome

/-- ToolRegistry.register: the decorator applied to a callable func whose
identifier is funcName and docstring funcDoc.  Resolves the name, builds
the InputSchema from the raw description (or the empty mapping), wraps a
validation failure in a ValueError naming the tool, rejects duplicate
names, stores the definition and returns the original callable. -/
def ToolRegistry.register {Fn : Type} (reg : ToolRegistry Fn)
    (name : Option String) (description : Option String)
    (input_schema : Option (List (String × Json)))
    (funcName : String) (funcDoc : Option String) (func : Fn) :
    Except RegisterError (ToolRegistry Fn × Fn) :=
  let toolName := resolveName name funcName
  match InputSchema.construct (input_schema.getD []) with
  | Except.error ve =>
    Except.error (RegisterError.invalidSchema
      ("Invalid input_schema for tool '" ++ toolName ++ "': " ++ ve))
  | Except.ok schema =>
    let tool : ToolDefinition Fn :=
      ⟨toolName, resolveDescription description funcDoc, schema, some func⟩
    if reg.containsName toolName then
      Except.error (RegisterError.alreadyRegistered
        ("Tool '" ++ toolName ++ "' already registered"))
    else
      Except.ok (⟨reg.tools ++ [(toolName, tool)]⟩, func)

/-- Errors get_callable can raise: the KeyError of the not-found branch
and the RuntimeError of the missing-callable branch. -/
inductive GetCallableError where
  | keyError : String → GetCallableError
  | runtimeError : String → GetCallableError
deriving Repr, DecidableEq

/-- ToolRegistry.get_callable.  The not-found branch interpolates the
local variable tool, which is None there, into the message, exactly as
the source f-string does: the message renders the Python literal None,
not the requested name. -/
def ToolRegistry.get_callable {Fn : Type} (reg : ToolRegistry Fn) (name : String) :
    Except GetCallableError Fn :=
  match alookup reg.tools name with
  | none => Except.error (GetCallableError.keyError "Tool 'None' not found")
  | some tool =>
    match tool.callable with
    | none => Except.error (GetCallableError.runtimeError
        ("Tool '" ++ name ++ "' has no callable attached"))
    | some f => Except.ok f

/-- ToolRegistry.get_all: the stored definitions in insertion order. -/
def ToolRegistry.get_all {Fn : Type} (reg : ToolRegistry Fn) : List (ToolDefinition Fn) :=
  reg.tools.map (fun kt => kt.2)

/-- ToolRegistry.get_json: one plain mapping per tool with name,
description and the exclude_none serialization of its input schema. -/
def ToolRegistry.get_json {Fn : Type} (reg : ToolRegistry Fn) : List Json :=
  reg.tools.map (fun kt =>
    Json.obj [("name", Json.str kt.2.name),
              ("description", Json.str kt.2.description),
              ("input_schema", Json.obj kt.2.input_schema.dump)])

/-- ToolRegistry.list_names: the registered names in insertion order. -/
def ToolRegistry.list_names {Fn : Type} (reg : ToolRegistry Fn) : List String :=
  reg.tools.map (fun kt => kt.1)

/-- A chat message as both adapters build it: a role and a content string. -/
structure Message where
  role : String
  content : String
deriving Repr, DecidableEq

/-- The keyword arguments AnthropicAdapter passes to
client.messages.create; the client itself is external, so the request is
the observable.  tools is absent for generate and present for
call_with_tools. -/
structure AnthropicRequest where
  model : String
  max_tokens : Nat
  messages : List Message
  tools : Option (List Json)
  extra : List (String × Json)

/-- AnthropicAdapter state: the injected registry, model identifier,
max_tokens and extra keyword options captured at construction. -/
structure AnthropicAdapter (Fn : Type) where
  registry : ToolRegistry Fn
  model : String := "claude-3.5-sonnet-20241022"
  max_tokens : Nat := 1024
  extra : List (String × Json) := []

/-- AnthropicAdapter.generate: a single user message, no tools key. -/
def AnthropicAdapter.generate {Fn : Type} (a : AnthropicAdapter Fn)
    (prompt : String) : AnthropicRequest :=
  ⟨a.model, a.max_tokens, [⟨"user", prompt⟩], none, a.extra⟩

/-- AnthropicAdapter.call_with_tools: identical to generate plus the
registry's get_json output under the tools keyword. -/
def AnthropicAdapter.call_with_tools {Fn : Type} (a : AnthropicAdapter Fn)
    (prompt : String) : AnthropicRequest :=
  ⟨a.model, a.max_tokens, [⟨"user", prompt⟩], some a.registry.get_json, a.extra⟩

/-- The keyword arguments OpenAIAdapter passes to
client.chat.completions.create (no max_tokens field on this variant). -/
structure OpenAIRequest where
  model : String
  messages : List Message
  tools : Option (List Json)
  extra : List (String × Json)

/-- OpenAIAdapter state: the injected registry, model identifier and
extra keyword options. -/
structure OpenAIAdapter (Fn : Type) where
  registry : ToolRegistry Fn
  model : String := "gpt-4o-mini"
  extra : List (String × Json) := []

/-- OpenAIAdapter.generate: a single user message, no tools key. -/
def OpenAIAdapter.generate {Fn : Type} (a : OpenAIAdapter Fn)
    (prompt : String) : OpenAIRequest :=
  ⟨a.model, [⟨"user", prompt⟩], none, a.extra⟩

/-- OpenAIAdapter.call_with_tools: identical to generate plus the
registry's get_json output under the tools keyword. -/
def OpenAIAdapter.call_with_tools {Fn : Type} (a : OpenAIAdapter Fn)
    (prompt : String) : OpenAIRequest :=
  ⟨a.model, [⟨"user", prompt⟩], some a.registry.get_json, a.extra⟩

/-- One register call performed at import time by a module of an
autodiscovered package: the arguments of the decorator plus the decorated
function's identifier, docstring and value. -/
structure RegCall (Fn : Type) where
  name : Option String
  description : Option String
  input_schema : Option (List (String × Json))
  funcName : String
  funcDoc : Option String
  func : Fn

/-- Run a sequence of register calls against a registry, stopping at the
first error, as import-time decorator execution does. -/
def runRegCalls {Fn : Type} : List (RegCall Fn) → ToolRegistry Fn →
    Except RegisterError (ToolRegistry Fn)
  | [], reg => Except.ok reg
  | c :: cs, reg =>
    match reg.register c.name c.description c.input_schema c.funcName c.funcDoc c.func with
    | Except.error e => Except.error e
    | Except.ok p => runRegCalls cs p.1

/-- The Python heap as far as registries are concerned: numbered registry
objects plus the reference held by the module-level name registry in
corefoundry.core.  References let object sharing be a provable fact
rather than a modelling assumption. -/
structure PyState (Fn : Type) where
  cells : List (Nat × ToolRegistry Fn)
  moduleRegistryRef : Nat

/-- Dereference a registry; a dangling reference reads as empty (never
reached from states the program builds). -/
def PyState.deref {Fn : Type} (st : PyState Fn) (r : Nat) : ToolRegistry Fn :=
  match st.cells.lookup r with
  | some reg => reg
  | none => ToolRegistry.empty Fn

/-- Overwrite the registry a reference points to. -/
def PyState.setCell {Fn : Type} (st : PyState Fn) (r : Nat) (reg : ToolRegistry Fn) :
    PyState Fn :=
  ⟨st.cells.map (fun kv => if kv.1 == r then (kv.1, reg) else kv), st.moduleRegistryRef⟩

/-- An Agent object: its identity fields plus the reference stored in
self._registry. -/
structure AgentObj where
  name : String
  description : String
  registryRef : Nat
deriving Repr, DecidableEq

/-- Agent.__init__: binds the module-level registry, first running
registry.autodiscover(auto_tools_pkg) when the package argument is truthy.
The package is given together with the register calls its modules perform
at import time (the modules themselves are external input); an
import-time registration error propagates. -/
def Agent.init {Fn : Type} (st : PyState Fn) (name : String) (description : String)
    (auto_tools_pkg : Option (String × List (RegCall Fn))) :
    Except RegisterError (AgentObj × PyState Fn) :=
  match auto_tools_pkg with
  | some (pkg, calls) =>
    if pkg == "" then
      Except.ok (⟨name, description, st.moduleRegistryRef⟩, st)
    else
      match runRegCalls calls (st.deref st.moduleRegistryRef) with
      | Except.error e => Except.error e
      | Except.ok reg =>
        Except.ok (⟨name, description, st.moduleRegistryRef⟩,
                   st.setCell st.moduleRegistryRef reg)
  | none => Except.ok (⟨name, description, st.moduleRegistryRef⟩, st)

/-- Agent.tool_names: delegates to list_names of the bound registry. -/
def AgentObj.tool_names {Fn : Type} (a : AgentObj) (st : PyState Fn) : List String :=
  (st.deref a.registryRef).list_names

/-- Agent.available_tools_json: json.dumps of the bound registry's
get_json output; modelled as the JSON array value being rendered, since
the textual rendering is a fixed function of it. -/
def AgentObj.available_tools_json {Fn : Type} (a : AgentObj) (st : PyState Fn) : Json :=
  Json.arr (st.deref a.registryRef).get_json

/-- Agent.call_tool: delegates to get_callable of the bound registry and
returns the callable to be invoked with the caller's arguments. -/
def AgentObj.call_tool {Fn : Type} (a : AgentObj) (st : PyState Fn) (n : String) :
    Except GetCallableError Fn :=
  (st.deref a.registryRef).get_callable n

mutual

/-- True when a JSON value contains no null anywhere. -/
def Json.noNull : Json → Bool
  | Json.null => false
  | Json.bool _ => true
  | Json.num _ => true
  | Json.str _ => true
  | Json.arr xs => Json.noNullList xs
  | Json.obj kvs => Json.noNullPairs kvs

/-- True when no element of the list contains a null. -/
def Json.noNullList : List Json → Bool
  | [] => true
  | x :: xs => Json.noNull x && Json.noNullList xs

/-- True when no value of the mapping contains a null. -/
def Json.noNullPairs : List (String × Json) → Bool
  | [] => true
  | kv :: kvs => Json.noNull kv.2 && Json.noNullPairs kvs

end

/-- True when a JSON value is a mapping carrying the given key. -/
def Json.hasKey (key : String) : Json → Bool
  | Json.obj kvs => (alookup kvs key).isSome
  | _ => false

/-- Reconstructing a ToolProperty from its exclude_none serialization
returns the same property. -/
theorem toolPropertyRoundtrip (p : ToolProperty) :
    ToolProperty.construct p.dump = Except.ok p := by
  cases p with
  | mk t d => cases d <;> rfl

/-- Reconstructing a properties mapping from its serialization returns
the same mapping. -/
theorem constructProps_dump (ps : List (String × ToolProperty)) :
    constructProps (ps.map (fun kp => (kp.1, kp.2.dump))) = Except.ok ps := by
  induction ps with
  | nil => rfl
  | cons kp rest ih =>
    obtain ⟨k, p⟩ := kp
    simp [constructProps, toolPropertyRoundtrip, ih]

/-- Parsing a list of string values returns the original strings. -/
theorem parseStrList_map (xs : List String) :
    parseStrList (xs.map Json.str) = Except.ok xs := by
  induction xs with
  | nil => rfl
  | cons x rest ih => simp [parseStrList, ih]

/-- The type field read back from a serialized schema. -/
theorem parseSchemaType_dump (s : InputSchema) :
    parseSchemaType s.dump = Except.ok s.type := rfl

/-- The properties field read back from a serialized schema. -/
theorem parseSchemaProps_dump (s : InputSchema) :
    parseSchemaProps s.dump =
      constructProps (s.properties.map (fun kp => (kp.1, kp.2.dump))) := rfl

/-- The required field read back from a serialized schema. -/
theorem parseSchemaRequired_dump (s : InputSchema) :
    parseSchemaRequired s.dump = parseStrList (s.required.map Json.str) := rfl

/-- Reconstructing an InputSchema from its exclude_none serialization
returns a structurally equal schema. -/
theorem inputSchemaRoundtrip (s : InputSchema) :
    InputSchema.construct s.dump = Except.ok s := by
  unfold InputSchema.construct
  rw [parseSchemaType_dump, parseSchemaProps_dump, parseSchemaRequired_dump,
      constructProps_dump, parseStrList_map]

/-- Success inversion for register: the schema was accepted, the resolved
name was fresh, the definition was appended and the callable returned. -/
theorem register_ok_iff {Fn : Type} (reg : ToolRegistry Fn)
    (name description : Option String)
    (input_schema : Option (List (String × Json))) (funcName : String)
    (funcDoc : Option String) (func : Fn) (reg' : ToolRegistry Fn) (r : Fn) :
    reg.register name description input_schema funcName funcDoc func =
      Except.ok (reg', r) ↔
    ∃ sch, InputSchema.construct (input_schema.getD []) = Except.ok sch ∧
      reg.containsName (resolveName name funcName) = false ∧
      reg' = ⟨reg.tools ++ [(resolveName name funcName,
        ⟨resolveName name funcName, resolveDescription description funcDoc,
         sch, some func⟩)]⟩ ∧
      r = func := by
  unfold ToolRegistry.register
  cases hc : InputSchema.construct (input_schema.getD []) with
  | error e => simp [hc]
  | ok sch =>
    cases hdup : reg.containsName (resolveName name funcName) with
    | true => simp [hdup]
    | false =>
      simp [hdup, eq_comm]

/-- A name absent from a mapping is found in an appended singleton. -/
theorem alookup_append_singleton {α : Type} (l : List (String × α)) (n : String)
    (v : α) (h : alookup l n = none) : alookup (l ++ [(n, v)]) n = some v := by
  induction l with
  | nil => simp [alookup]
  | cons kv rest ih =>
    by_cases hk : kv.1 == n
    · exfalso
      obtain ⟨k0, v0⟩ := kv
      simp [alookup, hk] at h
    · obtain ⟨k0, v0⟩ := kv
      simp only [alookup, List.cons_append] at *
      rw [if_neg (by simpa using hk)] at h ⊢
      exact ih h

/-- containsName is the lookup probe of the registry mapping. -/
theorem containsName_eq_false_iff {Fn : Type} (reg : ToolRegistry Fn) (n : String) :
    reg.containsName n = false ↔ alookup reg.tools n = none := by
  unfold ToolRegistry.containsName
  cases alookup reg.tools n <;> simp

/-- A serialized property contains no null. -/
theorem Json.noNull_prop_dump (p : ToolProperty) : Json.noNull p.dump = true := by
  cases p with
  | mk t d => cases d <;> rfl

/-- A serialized properties mapping contains no null. -/
theorem Json.noNullPairs_props (ps : List (String × ToolProperty)) :
    Json.noNullPairs (ps.map (fun kp => (kp.1, kp.2.dump))) = true := by
  induction ps with
  | nil => rfl
  | cons kp rest ih => simp [Json.noNullPairs, Json.noNull_prop_dump, ih]

/-- A list of serialized strings contains no null. -/
theorem Json.noNullList_strs (xs : List String) :
    Json.noNullList (xs.map Json.str) = true := by
  induction xs with
  | nil => rfl
  | cons x rest ih => simp [Json.noNullList, Json.noNull, ih]

/-- A serialized input schema contains no null. -/
theorem Json.noNullPairs_schema_dump (s : InputSchema) :
    Json.noNullPairs s.dump = true := by
  cases s with
  | mk t ps req =>
    simp [InputSchema.dump, Json.noNullPairs, Json.noNull,
          Json.noNullPairs_props, Json.noNullList_strs]

/-- Agent construction hands out the module-level registry reference and
never changes which reference the module level holds. -/
theorem Agent.init_refs {Fn : Type} (st st' : PyState Fn) (n d : String)
    (p : Option (String × List (RegCall Fn))) (a : AgentObj)
    (h : Agent.init st n d p = Except.ok (a, st')) :
    a.registryRef = st.moduleRegistryRef ∧
    st'.moduleRegistryRef = st.moduleRegistryRef := by
  cases p with
  | none =>
    unfold Agent.init at h
    simp only [Except.ok.injEq, Prod.mk.injEq] at h
    obtain ⟨ha, hst⟩ := h
    rw [← ha, ← hst]
    exact ⟨rfl, rfl⟩
  | some pc =>
    obtain ⟨pkg, calls⟩ := pc
    unfold Agent.init at h
    split at h
    · split at h
      · simp only [Except.ok.injEq, Prod.mk.injEq] at h
        obtain ⟨ha, hst⟩ := h
        rw [← ha, ← hst]
        exact ⟨rfl, rfl⟩
      · split at h
        · cases h
        · simp only [Except.ok.injEq, Prod.mk.injEq] at h
          obtain ⟨ha, hst⟩ := h
          rw [← ha, ← hst]
          exact ⟨rfl, rfl⟩
    · contradiction

/-- Claim C1, code bug: for a name absent from the registry, get_callable
must fail with a lookup error whose message contains exactly the requested
name and never renders the literal None.  The source f-string interpolates
the failed lookup result (the local variable tool, which is None in that
branch) instead of the requested name, so the message is the fixed text
Tool 'None' not found: evaluated at the failing input xyz on an empty
registry, the message does not contain xyz and does contain None.  The
repository's own regression tests require the opposite behaviour. -/
theorem c1_lookup_message_renders_none :
    (ToolRegistry.empty Nat).get_callable "xyz" =
      Except.error (GetCallableError.keyError "Tool 'None' not found") ∧
    ¬ ("xyz".data <:+: "Tool 'None' not found".data) ∧
    ("None".data <:+: "Tool 'None' not found".data) :=
  ⟨rfl, by decide, by decide⟩

/-- Claim C2, code bug: a structural description with an array-typed
property and no items field must be rejected with a validation error
naming the tool, and the tool must not be stored.  The source ToolProperty
model declares no items field at all and pydantic ignores unknown keys,
so the registration succeeds and the tool is stored: evaluated at the
failing input below, register returns the updated registry holding the
tool named bad.  The repository's own model tests require the
items-field validation to fail. -/
theorem c2_array_without_items_is_accepted :
    (ToolRegistry.empty Nat).register (some "bad") (some "bad schema")
      (some [("properties", Json.obj [("tags", Json.obj [("type", Json.str "array")])])])
      "bad_fn" none 0 =
      Except.ok (⟨[("bad", ⟨"bad", "bad schema",
        ⟨"object", [("tags", ⟨"array", none⟩)], []⟩, some 0⟩)]⟩, 0) ∧
    (⟨[("bad", ⟨"bad", "bad schema",
        ⟨"object", [("tags", ⟨"array", none⟩)], []⟩, some 0⟩)]⟩ :
      ToolRegistry Nat).list_names = ["bad"] :=
  ⟨rfl, rfl⟩

/-- Claim C3, confirmed: for every schema description accepted by
register, registering a tool with it, reading get_json and reconstructing
an InputSchema from the returned input_schema field yields a schema
structurally equal to the one the original description denotes. -/
theorem c3_get_json_roundtrip {Fn : Type} (reg : ToolRegistry Fn)
    (name description : Option String) (raw : List (String × Json))
    (funcName : String) (funcDoc : Option String) (func : Fn)
    (reg' : ToolRegistry Fn) (r : Fn)
    (h : reg.register name description (some raw) funcName funcDoc func =
      Except.ok (reg', r)) :
    ∃ sch : InputSchema,
      InputSchema.construct raw = Except.ok sch ∧
      reg'.get_json = reg.get_json ++
        [Json.obj [("name", Json.str (resolveName name funcName)),
                   ("description", Json.str (resolveDescription description funcDoc)),
                   ("input_schema", Json.obj sch.dump)]] ∧
      InputSchema.construct sch.dump = Except.ok sch := by
  obtain ⟨sch, hsch, hdup, hreg, hr⟩ := (register_ok_iff _ _ _ _ _ _ _ _ _).mp h
  refine ⟨sch, hsch, ?_, inputSchemaRoundtrip sch⟩
  rw [hreg]
  simp [ToolRegistry.get_json]

/-- Claim C3 witness: the round trip at a concrete registration with one
string property and one required name. -/
theorem c3_get_json_roundtrip_witness :
    ∃ sch : InputSchema,
      InputSchema.construct
        [("properties", Json.obj [("x", Json.obj [("type", Json.str "string")])]),
         ("required", Json.arr [Json.str "x"])] = Except.ok sch ∧
      (⟨[("t", ⟨"t", "d", ⟨"object", [("x", ⟨"string", none⟩)], ["x"]⟩, some 5⟩)]⟩ :
          ToolRegistry Nat).get_json = (ToolRegistry.empty Nat).get_json ++
        [Json.obj [("name", Json.str (resolveName (some "t") "f")),
                   ("description", Json.str (resolveDescription (some "d") none)),
                   ("input_schema", Json.obj sch.dump)]] ∧
      InputSchema.construct sch.dump = Except.ok sch :=
  c3_get_json_roundtrip (ToolRegistry.empty Nat) (some "t") (some "d")
    [("properties", Json.obj [("x", Json.obj [("type", Json.str "string")])]),
     ("required", Json.arr [Json.str "x"])]
    "f" none 5
    ⟨[("t", ⟨"t", "d", ⟨"object", [("x", ⟨"string", none⟩)], ["x"]⟩, some 5⟩)]⟩ 5 rfl

/-- Claim C4 counterexample: the claim says a second register call under
an already-registered name fails with the naming-conflict error regardless
of its description or schema.  The source validates the schema before the
duplicate check, so a duplicate registration whose schema description is
structurally invalid (a property missing its type) raises the
schema-validation ValueError instead: with dup already registered, the
second call returns the invalidSchema error, which is not the
alreadyRegistered error. -/
theorem c4_counterexample :
    ((ToolRegistry.empty Nat).register (some "dup") (some "first") none
      "first_fn" none 0 =
      Except.ok (⟨[("dup", ⟨"dup", "first", ⟨"object", [], []⟩, some 0⟩)]⟩, 0)) ∧
    ((⟨[("dup", ⟨"dup", "first", ⟨"object", [], []⟩, some 0⟩)]⟩ :
        ToolRegistry Nat).register (some "dup") (some "second")
      (some [("properties", Json.obj [("p", Json.obj [("description", Json.str "x")])])])
      "second_fn" none 1 =
      Except.error (RegisterError.invalidSchema
        "Invalid input_schema for tool 'dup': type: Field required")) ∧
    (RegisterError.invalidSchema
        "Invalid input_schema for tool 'dup': type: Field required" ≠
      RegisterError.alreadyRegistered "Tool 'dup' already registered") :=
  ⟨rfl, rfl, by decide⟩

/-- Claim C4, corrected: with the resolved name already registered, a
second register call always fails and leaves the registry unchanged (the
source raises before its only mutation of the mapping); the error is the
naming-conflict error whenever the supplied schema description is
structurally valid, while a structurally invalid description fails
earlier with the schema-validation error.  The preserved original
definition remains observable: get_callable still returns the originally
stored callable. -/
theorem c4_duplicate_always_fails {Fn : Type} (reg : ToolRegistry Fn)
    (name description : Option String)
    (input_schema : Option (List (String × Json))) (funcName : String)
    (funcDoc : Option String) (func : Fn)
    (h : reg.containsName (resolveName name funcName) = true) :
    (∃ e, reg.register name description input_schema funcName funcDoc func =
      Except.error e) ∧
    (∀ sch, InputSchema.construct (input_schema.getD []) = Except.ok sch →
      reg.register name description input_schema funcName funcDoc func =
        Except.error (RegisterError.alreadyRegistered
          ("Tool '" ++ resolveName name funcName ++ "' already registered"))) ∧
    (∀ t f0, alookup reg.tools (resolveName name funcName) = some t →
      t.callable = some f0 →
      reg.get_callable (resolveName name funcName) = Except.ok f0) := by
  refine ⟨?_, ?_, ?_⟩
  · cases hc : InputSchema.construct (input_schema.getD []) with
    | error e =>
      refine ⟨RegisterError.invalidSchema
        ("Invalid input_schema for tool '" ++ resolveName name funcName ++ "': " ++ e), ?_⟩
      unfold ToolRegistry.register
      rw [hc]
    | ok sch =>
      refine ⟨RegisterError.alreadyRegistered
        ("Tool '" ++ resolveName name funcName ++ "' already registered"), ?_⟩
      unfold ToolRegistry.register
      rw [hc]
      simp [h]
  · intro sch hsch
    unfold ToolRegistry.register
    rw [hsch]
    simp [h]
  · intro t f0 ht hf
    unfold ToolRegistry.get_callable
    rw [ht]
    simp [hf]

/-- Claim C4 witness: duplicate registration of dup with a valid schema
fails with the naming-conflict error, and get_callable still returns the
original callable. -/
theorem c4_duplicate_always_fails_witness :
    ((⟨[("dup", ⟨"dup", "first", ⟨"object", [], []⟩, some 0⟩)]⟩ :
        ToolRegistry Nat).containsName (resolveName (some "dup") "g") = true) ∧
    ((∃ e, (⟨[("dup", ⟨"dup", "first", ⟨"object", [], []⟩, some 0⟩)]⟩ :
        ToolRegistry Nat).register (some "dup") (some "second") none "g" none 1 =
      Except.error e) ∧
    (∀ sch, InputSchema.construct ((none : Option (List (String × Json))).getD []) =
        Except.ok sch →
      (⟨[("dup", ⟨"dup", "first", ⟨"object", [], []⟩, some 0⟩)]⟩ :
        ToolRegistry Nat).register (some "dup") (some "second") none "g" none 1 =
        Except.error (RegisterError.alreadyRegistered
          ("Tool '" ++ resolveName (some "dup") "g" ++ "' already registered"))) ∧
    (∀ t f0, alookup (⟨[("dup", ⟨"dup", "first", ⟨"object", [], []⟩, some 0⟩)]⟩ :
        ToolRegistry Nat).tools (resolveName (some "dup") "g") = some t →
      t.callable = some f0 →
      (⟨[("dup", ⟨"dup", "first", ⟨"object", [], []⟩, some 0⟩)]⟩ :
        ToolRegistry Nat).get_callable (resolveName (some "dup") "g") =
        Except.ok f0)) :=
  ⟨rfl, c4_duplicate_always_fails _ (some "dup") (some "second") none "g" none 1 rfl⟩

/-- Serialized tool entries contain no null anywhere. -/
theorem noNullList_toolsJson {Fn : Type} (l : List (String × ToolDefinition Fn)) :
    Json.noNullList (l.map (fun kt =>
      Json.obj [("name", Json.str kt.2.name),
                ("description", Json.str kt.2.description),
                ("input_schema", Json.obj kt.2.input_schema.dump)])) = true := by
  induction l with
  | nil => rfl
  | cons kt rest ih =>
    simp [Json.noNullList, Json.noNull, Json.noNullPairs,
          Json.noNullPairs_schema_dump, Json.noNullPairs_props,
          Json.noNullList_strs, ih]

/-- Claim C5, confirmed: for every registry, get_json output contains no
null-equivalent value anywhere, and a serialized property carries a
description key exactly when the source property has a description. -/
theorem c5_get_json_omits_absent_fields {Fn : Type} (reg : ToolRegistry Fn) :
    Json.noNullList reg.get_json = true ∧
    ∀ p : ToolProperty, Json.hasKey "description" p.dump = p.description.isSome := by
  constructor
  · exact noNullList_toolsJson reg.tools
  · intro p
    cases p with
    | mk t d => cases d <;> rfl

/-- Claim C6, confirmed: for every adapter state and prompt, each
adapter's call_with_tools passes the registry's get_json output unchanged
under the tools key, together with a single user-role message whose
content is the prompt. -/
theorem c6_call_with_tools_passthrough {Fn : Type}
    (a : AnthropicAdapter Fn) (b : OpenAIAdapter Fn) (prompt : String) :
    (a.call_with_tools prompt).tools = some a.registry.get_json ∧
    (a.call_with_tools prompt).messages = [⟨"user", prompt⟩] ∧
    (b.call_with_tools prompt).tools = some b.registry.get_json ∧
    (b.call_with_tools prompt).messages = [⟨"user", prompt⟩] :=
  ⟨rfl, rfl, rfl, rfl⟩

/-- Claim C7 counterexample: the claim says the stored description is the
explicit description argument whenever one is given.  The source resolves
it with Python or-chaining, which treats an explicit empty string as
absent: registering with the explicit description empty string and a
docstring stores the docstring, not the empty string. -/
theorem c7_counterexample :
    ((ToolRegistry.empty Nat).register none (some "") none
      "docfn" (some "From docstring") 7 =
      Except.ok (⟨[("docfn", ⟨"docfn", "From docstring",
        ⟨"object", [], []⟩, some 7⟩)]⟩, 7)) ∧
    ("From docstring" ≠ "") :=
  ⟨rfl, by decide⟩

/-- Claim C7, corrected: the stored description is the explicit
description argument when it is given and non-empty, otherwise the
callable's docstring when present and non-empty, otherwise the literal
fallback No description provided (Python truthiness, not mere presence,
selects the source). -/
theorem c7_description_resolution {Fn : Type} (reg reg' : ToolRegistry Fn)
    (name description : Option String)
    (input_schema : Option (List (String × Json))) (funcName : String)
    (funcDoc : Option String) (func r : Fn)
    (h : reg.register name description input_schema funcName funcDoc func =
      Except.ok (reg', r)) :
    ∃ t : ToolDefinition Fn,
      alookup reg'.tools (resolveName name funcName) = some t ∧
      (∀ s, description = some s → s ≠ "" → t.description = s) ∧
      ((description = none ∨ description = some "") →
        ∀ s, funcDoc = some s → s ≠ "" → t.description = s) ∧
      ((description = none ∨ description = some "") →
        (funcDoc = none ∨ funcDoc = some "") →
        t.description = "No description provided") := by
  obtain ⟨sch, hsch, hdup, hreg, hr⟩ := (register_ok_iff _ _ _ _ _ _ _ _ _).mp h
  refine ⟨⟨resolveName name funcName, resolveDescription description funcDoc,
    sch, some func⟩, ?_, ?_, ?_, ?_⟩
  · rw [hreg]
    exact alookup_append_singleton _ _ _ ((containsName_eq_false_iff _ _).mp hdup)
  · intro s hs hne
    subst hs
    simp [resolveDescription, strOr, hne]
  · intro hd s hfd hne
    subst hfd
    rcases hd with hd | hd <;> subst hd <;> simp [resolveDescription, strOr, hne]
  · intro hd hf
    rcases hd with hd | hd <;> rcases hf with hf | hf <;> subst hd <;> subst hf <;>
      simp [resolveDescription, strOr]

/-- Claim C7 witness: an explicit non-empty description wins at a
concrete registration. -/
theorem c7_description_resolution_witness :
    ((ToolRegistry.empty Nat).register none (some "Explicit") none
      "fn7" (some "doc7") 3 =
      Except.ok (⟨[("fn7", ⟨"fn7", "Explicit", ⟨"object", [], []⟩, some 3⟩)]⟩, 3)) ∧
    (∃ t : ToolDefinition Nat,
      alookup (⟨[("fn7", ⟨"fn7", "Explicit", ⟨"object", [], []⟩, some 3⟩)]⟩ :
        ToolRegistry Nat).tools (resolveName none "fn7") = some t ∧
      (∀ s, (some "Explicit" : Option String) = some s → s ≠ "" → t.description = s) ∧
      (((some "Explicit" : Option String) = none ∨
          (some "Explicit" : Option String) = some "") →
        ∀ s, (some "doc7" : Option String) = some s → s ≠ "" → t.description = s) ∧
      (((some "Explicit" : Option String) = none ∨
          (some "Explicit" : Option String) = some "") →
        ((some "doc7" : Option String) = none ∨
          (some "doc7" : Option String) = some "") →
        t.description = "No description provided")) :=
  ⟨rfl, c7_description_resolution (ToolRegistry.empty Nat) _ none (some "Explicit")
    none "fn7" (some "doc7") 3 3 rfl⟩

/-- Claim C8, confirmed: when a name is registered under a definition
whose callable is absent, get_callable fails with the RuntimeError whose
message says no callable attached, an error distinct by construction from
the not-found KeyError. -/
theorem c8_missing_callable_distinct_error {Fn : Type} (reg : ToolRegistry Fn)
    (name : String) (t : ToolDefinition Fn)
    (h1 : alookup reg.tools name = some t) (h2 : t.callable = none) :
    reg.get_callable name = Except.error (GetCallableError.runtimeError
      ("Tool '" ++ name ++ "' has no callable attached")) ∧
    ∀ m, GetCallableError.runtimeError
      ("Tool '" ++ name ++ "' has no callable attached") ≠
      GetCallableError.keyError m := by
  constructor
  · unfold ToolRegistry.get_callable
    rw [h1]
    simp [h2]
  · intro m hx
    exact GetCallableError.noConfusion hx

/-- Claim C8 witness: a definition inserted with no callable yields the
distinct RuntimeError at a concrete lookup. -/
theorem c8_missing_callable_distinct_error_witness :
    (alookup (⟨[("ghost", ⟨"ghost", "no callable", ⟨"object", [], []⟩,
        (none : Option Nat)⟩)]⟩ : ToolRegistry Nat).tools "ghost" =
      some ⟨"ghost", "no callable", ⟨"object", [], []⟩, none⟩) ∧
    ((⟨"ghost", "no callable", ⟨"object", [], []⟩,
        (none : Option Nat)⟩ : ToolDefinition Nat).callable = none) ∧
    ((⟨[("ghost", ⟨"ghost", "no callable", ⟨"object", [], []⟩,
        (none : Option Nat)⟩)]⟩ : ToolRegistry Nat).get_callable "ghost" =
      Except.error (GetCallableError.runtimeError
        ("Tool '" ++ "ghost" ++ "' has no callable attached")) ∧
    ∀ m, GetCallableError.runtimeError
      ("Tool '" ++ "ghost" ++ "' has no callable attached") ≠
      GetCallableError.keyError m) :=
  ⟨rfl, rfl, c8_missing_callable_distinct_error _ "ghost" _ rfl rfl⟩

/-- Claim C9, confirmed: a successful register call returns the original
callable unchanged, so decoration is transparent to callers. -/
theorem c9_register_returns_original_callable {Fn : Type}
    (reg reg' : ToolRegistry Fn) (name description : Option String)
    (input_schema : Option (List (String × Json))) (funcName : String)
    (funcDoc : Option String) (func r : Fn)
    (h : reg.register name description input_schema funcName funcDoc func =
      Except.ok (reg', r)) :
    r = func := by
  obtain ⟨sch, _, _, _, hr⟩ := (register_ok_iff _ _ _ _ _ _ _ _ _).mp h
  exact hr

/-- Claim C9 witness: a concrete successful registration returns the
registered function value. -/
theorem c9_register_returns_original_callable_witness :
    ((ToolRegistry.empty Nat).register (some "w9") none none "f9" none 42 =
      Except.ok (⟨[("w9", ⟨"w9", "No description provided",
        ⟨"object", [], []⟩, some 42⟩)]⟩, 42)) ∧
    (42 : Nat) = 42 :=
  ⟨rfl, c9_register_returns_original_callable (ToolRegistry.empty Nat) _
    (some "w9") none none "f9" none 42 42 rfl⟩

/-- Claim C10, confirmed: every Agent binds the single module-level
registry, not a per-instance one: any two agents constructed in sequence
hold the same registry reference, their tool_names, available_tools_json
and call_tool observe the same tool set in the final state, and every
tool visible through one (for instance one registered by the second
agent's autodiscover) is visible through the other. -/
theorem c10_agents_share_module_registry {Fn : Type} (st st1 st2 : PyState Fn)
    (n1 d1 n2 d2 : String) (p1 p2 : Option (String × List (RegCall Fn)))
    (a1 a2 : AgentObj)
    (h1 : Agent.init st n1 d1 p1 = Except.ok (a1, st1))
    (h2 : Agent.init st1 n2 d2 p2 = Except.ok (a2, st2)) :
    a1.registryRef = a2.registryRef ∧
    a1.tool_names st2 = a2.tool_names st2 ∧
    a1.available_tools_json st2 = a2.available_tools_json st2 ∧
    (∀ n, a1.call_tool st2 n = a2.call_tool st2 n) ∧
    (∀ n, n ∈ a2.tool_names st2 → n ∈ a1.tool_names st2) := by
  obtain ⟨ha1, hs1⟩ := Agent.init_refs _ _ _ _ _ _ h1
  obtain ⟨ha2, hs2⟩ := Agent.init_refs _ _ _ _ _ _ h2
  have href : a1.registryRef = a2.registryRef := by rw [ha1, ha2, hs1]
  refine ⟨href, ?_, ?_, ?_, ?_⟩
  · unfold AgentObj.tool_names
    rw [href]
  · unfold AgentObj.available_tools_json
    rw [href]
  · intro n
    unfold AgentObj.call_tool
    rw [href]
  · intro n hn
    unfold AgentObj.tool_names at hn ⊢
    rw [href]
    exact hn

/-- Claim C10 witness: an agent constructed with no package and a second
agent whose autodiscover registers the tool t1 observe the same tool set
in the final state. -/
theorem c10_agents_share_module_registry_witness :
    (Agent.init (⟨[(0, ToolRegistry.empty Nat)], 0⟩ : PyState Nat) "A" "" none =
      Except.ok (⟨"A", "", 0⟩, ⟨[(0, ToolRegistry.empty Nat)], 0⟩)) ∧
    (Agent.init (⟨[(0, ToolRegistry.empty Nat)], 0⟩ : PyState Nat) "B" ""
      (some ("pkg", [⟨some "t1", some "d", none, "f", none, 7⟩])) =
      Except.ok (⟨"B", "", 0⟩,
        ⟨[(0, ⟨[("t1", ⟨"t1", "d", ⟨"object", [], []⟩, some 7⟩)]⟩)], 0⟩)) ∧
    ((⟨"A", "", 0⟩ : AgentObj).registryRef = (⟨"B", "", 0⟩ : AgentObj).registryRef ∧
    (⟨"A", "", 0⟩ : AgentObj).tool_names
        (⟨[(0, ⟨[("t1", ⟨"t1", "d", ⟨"object", [], []⟩, some 7⟩)]⟩)], 0⟩ : PyState Nat) =
      (⟨"B", "", 0⟩ : AgentObj).tool_names
        (⟨[(0, ⟨[("t1", ⟨"t1", "d", ⟨"object", [], []⟩, some 7⟩)]⟩)], 0⟩ : PyState Nat) ∧
    (⟨"A", "", 0⟩ : AgentObj).available_tools_json
        (⟨[(0, ⟨[("t1", ⟨"t1", "d", ⟨"object", [], []⟩, some 7⟩)]⟩)], 0⟩ : PyState Nat) =
      (⟨"B", "", 0⟩ : AgentObj).available_tools_json
        (⟨[(0, ⟨[("t1", ⟨"t1", "d", ⟨"object", [], []⟩, some 7⟩)]⟩)], 0⟩ : PyState Nat) ∧
    (∀ n, (⟨"A", "", 0⟩ : AgentObj).call_tool
        (⟨[(0, ⟨[("t1", ⟨"t1", "d", ⟨"object", [], []⟩, some 7⟩)]⟩)], 0⟩ : PyState Nat) n =
      (⟨"B", "", 0⟩ : AgentObj).call_tool
        (⟨[(0, ⟨[("t1", ⟨"t1", "d", ⟨"object", [], []⟩, some 7⟩)]⟩)], 0⟩ : PyState Nat) n) ∧
    (∀ n, n ∈ (⟨"B", "", 0⟩ : AgentObj).tool_names
        (⟨[(0, ⟨[("t1", ⟨"t1", "d", ⟨"object", [], []⟩, some 7⟩)]⟩)], 0⟩ : PyState Nat) →
      n ∈ (⟨"A", "", 0⟩ : AgentObj).tool_names
        (⟨[(0, ⟨[("t1", ⟨"t1", "d", ⟨"object", [], []⟩, some 7⟩)]⟩)], 0⟩ : PyState Nat))) :=
  ⟨rfl, rfl,
    c10_agents_share_module_registry
      (⟨[(0, ToolRegistry.empty Nat)], 0⟩ : PyState Nat)
      (⟨[(0, ToolRegistry.empty Nat)], 0⟩ : PyState Nat)
      (⟨[(0, ⟨[("t1", ⟨"t1", "d", ⟨"object", [], []⟩, some 7⟩)]⟩)], 0⟩ : PyState Nat)
      "A" "" "B" "" none
      (some ("pkg", [⟨some "t1", some "d", none, "f", none, 7⟩]))
      ⟨"A", "", 0⟩ ⟨"B", "", 0⟩ rfl rfl⟩

end CoreFoundry
